import Mathlib

set_option maxRecDepth 8000

/-! # Shallow embedding: 3D cellular-automata compute core

This file embeds the 3D automaton compute modules of the repository
(`automataLogic3D.js` (CPU), `automataLogic3DTF.js` (tensor/GPGPU),
`automataLogic3DGPU.js` (WebGL texture shaders), `automataLogic3DWEBGPU.js`)
and proves properties of the embedded code.

Conventions:
* JS `number` cell values are modelled as `Int` (every cell value produced by
  this code is a small integer).
* A JS 3D array is a `List (List (List Int))`.  Reading `a[i]` past the end of
  an array yields `undefined` in JS, and indexing into that `undefined` throws
  a `TypeError`; CPU-module functions that can hit this are modelled in the
  `Except Unit` monad, where `.error ()` is a thrown `TypeError`.
* A `for (x...) for (y...) for (z...)` loop filling every cell of a fresh
  `createEmpty3DGrid` result is modelled as a nested `List.range` map
  (`buildGrid`), and as a nested `mapM` when the loop body can throw.
-/

abbrev Cell := Int

abbrev Grid3 := List (List (List Cell))

/-- `grid[x][y][z]` as a total mathematical accessor, used in statements about
well-formed grids (the code-faithful, exception-aware read is `readCell`). -/
def cellAt (g : Grid3) (x y z : Nat) : Cell :=
  ((g.getD x []).getD y []).getD z 0

/-- Functional form of the triple loop that fills every cell of an
`X × Y × Z` array with `f x y z`. -/
def buildGrid (X Y Z : Nat) (f : Nat → Nat → Nat → Cell) : Grid3 :=
  (List.range X).map fun x =>
    (List.range Y).map fun y =>
      (List.range Z).map fun z => f x y z

/-- The grid is a well-formed `X × Y × Z` box with positive dimensions. -/
def WellFormed (g : Grid3) (X Y Z : Nat) : Prop :=
  g.length = X ∧ 0 < X ∧ 0 < Y ∧ 0 < Z ∧
    ∀ p ∈ g, p.length = Y ∧ ∀ r ∈ p, r.length = Z

instance (g : Grid3) (X Y Z : Nat) : Decidable (WellFormed g X Y Z) := by
  unfold WellFormed; infer_instance

/-- JS `(i + size) % size` applied to an offset index `i`; the code always
adds the dimension before taking `%`, keeping the left operand nonnegative
for the indices that occur. -/
def wrapIdx (size : Nat) (i : Int) : Nat :=
  ((i + size) % (size : Int)).toNat

/-- Shape of one entry of the rule table: a birth/survival pair, or one of the
marker objects `\x7btype: special\x7d` / `\x7btype: static\x7d`. -/
inductive RuleDef where
  | bs (birth survival : List Nat)
  | special
  | static
deriving DecidableEq

/-- `RULE_DEFINITIONS[name]` — the rule table, an identical object literal in
all four backend modules. -/
def RULE_DEFINITIONS (name : String) : Option RuleDef :=
  if name = "conway3d" then some (.bs [5, 6, 7] [4, 5, 6])
  else if name = "life3d" then some (.bs [4, 5] [5, 6, 7])
  else if name = "stability" then some (.bs [4, 5, 6, 7] [3, 4, 5, 6])
  else if name = "crystal" then some (.bs [5, 6, 7, 8] [5, 6, 7, 8])
  else if name = "pyroclastic" then some (.bs [4, 5, 6, 7] [6, 7, 8])
  else if name = "diamoeba3d" then some (.bs [5, 6, 7, 8] [5, 6, 7, 8, 9, 10])
  else if name = "hyper" then some (.bs [5, 6, 7] [5, 6, 7, 8, 9, 10])
  else if name = "briansbrain3d" then some .special
  else if name = "checkerboard" then some .static
  else none

/-- `createEmpty3DGrid(sizeX, sizeY, sizeZ)`: nested arrays filled with `0`. -/
def createEmpty3DGrid (sizeX sizeY sizeZ : Nat) : Grid3 :=
  List.replicate sizeX (List.replicate sizeY (List.replicate sizeZ 0))

instance {ε α : Type} [DecidableEq ε] [DecidableEq α] : DecidableEq (Except ε α) :=
  fun a b =>
    match a, b with
    | .ok a, .ok b =>
      if h : a = b then .isTrue (by rw [h]) else .isFalse (by simp [h])
    | .error a, .error b =>
      if h : a = b then .isTrue (by rw [h]) else .isFalse (by simp [h])
    | .ok _, .error _ => .isFalse (by simp)
    | .error _, .ok _ => .isFalse (by simp)

/-- Sequential `map` in the `Except` monad: runs the body left to right and
propagates the first thrown exception, like a JS `for` loop building a fresh
array. -/
def listMapME {α β : Type} (f : α → Except Unit β) : List α → Except Unit (List β)
  | [] => .ok []
  | a :: l => do
    let b ← f a
    let bs ← listMapME f l
    .ok (b :: bs)

/-- Sequential fold in the `Except` monad, like a JS accumulation loop. -/
def listFoldlME {α β : Type} (f : β → α → Except Unit β) : β → List α → Except Unit β
  | b, [] => .ok b
  | b, a :: l => do
    let b2 ← f b a
    listFoldlME f b2 l

namespace AutomataLogic3D

/-! ## CPU reference engine (`automataLogic3D.js`) -/

/-- JS read `grid[x][y][z]`: a missing plane or missing row makes the next
indexing step throw a `TypeError`; a missing cell (`z` past the end of the
row) reads `undefined` (`none`) without throwing. -/
def readCell (g : Grid3) (x y z : Nat) : Except Unit (Option Cell) :=
  match g[x]? with
  | none => .error ()
  | some plane =>
    match plane[y]? with
    | none => .error ()
    | some row => .ok row[z]?

/-- The `dx/dy/dz ∈ {-1,0,1}` triple loop of the neighbour counters, with the
`continue` on the centre cell expressed as a filter. -/
def neighborOffsets : List (Int × Int × Int) :=
  ((([-1, 0, 1] : List Int).flatMap fun dx =>
    (([-1, 0, 1] : List Int).flatMap fun dy =>
      ([-1, 0, 1] : List Int).map fun dz => (dx, dy, dz)))).filter
    fun o => !(o.1 == 0 && o.2.1 == 0 && o.2.2 == 0)

/-- `countLiveNeighbors3D(grid, x, y, z)`: count, over the 26 wrapped
neighbours, the cells that hold exactly `1`.  (`grid[0]` is read for the
dimensions; every call site sits behind the non-empty-grid guard of
`calculateNextGeneration3D`, so the `headD []` defaults are never the value
actually used.) -/
def countLiveNeighbors3D (g : Grid3) (x y z : Nat) : Except Unit Nat :=
  listFoldlME
    (fun count o => do
      let v ← readCell g (wrapIdx g.length ((x : Int) + o.1))
        (wrapIdx (g.headD []).length ((y : Int) + o.2.1))
        (wrapIdx ((g.headD []).headD []).length ((z : Int) + o.2.2))
      pure (if v = some 1 then count + 1 else count))
    0 neighborOffsets

/-- `calculateBriansBrain3D(currentGrid)`.  The source inlines, for
state-`0` cells, a neighbour-counting loop identical to
`countLiveNeighbors3D` (both count `=== 1` cells over the same wrapped
offsets), so the embedded counter is reused here.  A cell state other than
`0`, `1`, `2` matches no branch and leaves the `createEmpty3DGrid` value `0`
in place. -/
def calculateBriansBrain3D (g : Grid3) : Except Unit Grid3 :=
  listMapME (fun x =>
    listMapME (fun y =>
      listMapME (fun z => do
        let cellState ← readCell g x y z
        if cellState = some 0 then do
          let onNeighbors ← countLiveNeighbors3D g x y z
          pure (if onNeighbors = 2 then (1 : Cell) else 0)
        else if cellState = some 1 then pure 2
        else if cellState = some 2 then pure 0
        else pure 0) (List.range ((g.headD []).headD []).length))
      (List.range (g.headD []).length))
    (List.range g.length)

/-- `calculateNextGeneration3D(currentGrid, ruleName)`.  `none` is a JS
`null`/`undefined` grid argument.  The entry guard mirrors the source
condition `!grid || grid.length === 0 || !grid[0] || grid[0].length === 0 ||
!grid[0][0] || grid[0][0].length === 0` (for a list, `!grid[0]` coincides
with `grid.length === 0`, and likewise one level down).

In the static-`checkerboard` copy branch, a read past the end of a ragged
row would store JS `undefined` into the integer grid; that value is not
representable in `Cell`, so the model signals it as `.error ()`.  No theorem
below exercises that corner: well-formed grids never reach it, and the
ragged grids used below throw earlier, at a missing row.  In the final
branch, a `special`/`static` table entry is unreachable (those rule names
are dispatched by name first); JS would destructure `undefined` birth/survival
lists and throw on `.includes`, so the model also answers `.error ()`. -/
def calculateNextGeneration3D : Option Grid3 → String → Except Unit Grid3
  | none, _ruleName => .ok (createEmpty3DGrid 1 1 1)
  | some g, ruleName =>
    if g.length = 0 ∨ (g.headD []).length = 0 ∨ ((g.headD []).headD []).length = 0 then
      .ok (createEmpty3DGrid 1 1 1)
    else if ruleName = "briansbrain3d" then
      calculateBriansBrain3D g
    else if ruleName = "checkerboard" then
      listMapME (fun x =>
        listMapME (fun y =>
          listMapME (fun z => do
            let v ← readCell g x y z
            match v with
            | some c => pure c
            | none => .error ()) (List.range ((g.headD []).headD []).length))
          (List.range (g.headD []).length))
        (List.range g.length)
    else
      match (RULE_DEFINITIONS ruleName).getD (.bs [5, 6, 7] [4, 5, 6]) with
      | .bs birth survival =>
        listMapME (fun x =>
          listMapME (fun y =>
            listMapME (fun z => do
              let liveNeighbors ← countLiveNeighbors3D g x y z
              let cv ← readCell g x y z
              pure (if cv = some 1 then
                      (if survival.contains liveNeighbors then (1 : Cell) else 0)
                    else
                      (if birth.contains liveNeighbors then 1 else 0)))
              (List.range ((g.headD []).headD []).length))
            (List.range (g.headD []).length))
          (List.range g.length)
      | _ => .error ()

end AutomataLogic3D

/-! ## Specification-side notions used in the claim statements -/

/-- The 26 Moore-neighbourhood offsets written out explicitly; proved equal to
the loop-generated `AutomataLogic3D.neighborOffsets`. -/
def mooreOffsets : List (Int × Int × Int) :=
  [(-1, -1, -1), (-1, -1, 0), (-1, -1, 1), (-1, 0, -1), (-1, 0, 0), (-1, 0, 1),
   (-1, 1, -1), (-1, 1, 0), (-1, 1, 1), (0, -1, -1), (0, -1, 0), (0, -1, 1),
   (0, 0, -1), (0, 0, 1), (0, 1, -1), (0, 1, 0), (0, 1, 1), (1, -1, -1),
   (1, -1, 0), (1, -1, 1), (1, 0, -1), (1, 0, 0), (1, 0, 1), (1, 1, -1),
   (1, 1, 0), (1, 1, 1)]

/-- Toroidal wrap as the specification states it: the index modulo the
dimension (mathematical mod, nonnegative result). -/
def specWrap (size : Nat) (i : Int) : Nat := (i % (size : Int)).toNat

/-- The neighbour count the claims describe: among the 26 toroidally wrapped
Moore neighbours of `(x, y, z)` in an `X × Y × Z` grid, the number of cells
whose value is exactly `1`. -/
def specNeighborCount (g : Grid3) (X Y Z x y z : Nat) : Nat :=
  mooreOffsets.countP fun o =>
    decide (cellAt g (specWrap X ((x : Int) + o.1)) (specWrap Y ((y : Int) + o.2.1))
      (specWrap Z ((z : Int) + o.2.2)) = 1)

namespace AutomataLogic3DTF

/-! ## Tensor-convolution engine (`automataLogic3DTF.js`)

Tensor values are modelled as `Rat`.  Every numeric value that occurs in a
step (cell values 0, 1, 2; kernel entries 0, 1; integer-or-half neighbour
sums; mask values 0, 1; the dying encoding 0.5) is a small dyadic rational
that an IEEE float represents exactly, and every comparison in this code has
a margin far wider than float rounding error, so exact rational arithmetic
agrees with the float arithmetic the library performs.

The module is driven through a singleton: each `calculateNextGeneration3DTF`
call re-uploads the passed canonical grid (`initialize` or `updateGrid` both
flatten the argument into a fresh tensor), runs one generation and decodes,
so the per-call behaviour is decode ∘ rule-kernel ∘ encode.  All theorems
below pass well-formed grids; a ragged grid would make JS store `undefined`
(NaN) into the Float32Array, which this integer-cell model does not
represent. -/

abbrev RGrid := List (List (List Rat))

/-- Tensor entry `t[x][y][z]` (total accessor; out-of-range is only used via
`paddedAt`, which checks bounds first). -/
def cellAtR (t : RGrid) (x y z : Nat) : Rat := ((t.getD x []).getD y []).getD z 0

/-- Triple loop filling an `X × Y × Z` tensor. -/
def buildRGrid (X Y Z : Nat) (f : Nat → Nat → Nat → Rat) : RGrid :=
  (List.range X).map fun x =>
    (List.range Y).map fun y =>
      (List.range Z).map fun z => f x y z

/-- `initialize`/`updateGrid`: the grid becomes a rank-3 float tensor of
shape `[sizeX, sizeY, sizeZ]`.  The flat buffer is filled x-outer/z-inner and
`tf.tensor3d` with that shape reads it back in the same row-major order, so
the tensor at `[x][y][z]` holds `grid[x][y][z]`. -/
def gridTensorOf (g : Grid3) : RGrid :=
  g.map fun plane => plane.map fun row => row.map fun (v : Cell) => (v : Rat)

/-- `createConvolutionKernel`: the 3×3×3 kernel, all ones except a zero at
the centre `(1,1,1)`. -/
def kernelVal (a b c : Nat) : Rat := if a = 1 ∧ b = 1 ∧ c = 1 then 0 else 1

/-- The read `tf.conv3d` with `same` padding performs: positions outside the
tensor contribute zero (zero padding, not wraparound). -/
def paddedAt (t : RGrid) (x y z : Int) : Rat :=
  if 0 ≤ x ∧ x < (t.length : Int) ∧ 0 ≤ y ∧ y < ((t.headD []).length : Int) ∧
      0 ≤ z ∧ z < (((t.headD []).headD []).length : Int) then
    cellAtR t x.toNat y.toNat z.toNat
  else 0

/-- `tf.conv3d(gridExpanded, convKernel, strides 1, same)` at one cell:
cross-correlation of the all-ones-except-centre kernel with the zero-padded
tensor. -/
def neighborCount (t : RGrid) (x y z : Nat) : Rat :=
  ((List.range 3).flatMap fun a =>
    (List.range 3).flatMap fun b =>
      (List.range 3).map fun c =>
        kernelVal a b c *
          paddedAt t ((x : Int) + a - 1) ((y : Int) + b - 1) ((z : Int) + c - 1)).sum

/-- `birthArray`/`survivalArray`: `Array(27).fill(0)` then `arr[v] = 1` for
each rule value `v` with `0 ≤ v < 27`; at the indices `i ≤ 26` that the loop
reads, the entry is `1` exactly when `i` is in the rule list. -/
def ruleArray (vs : List Nat) (i : Nat) : Bool := vs.contains i

/-- `processStandardRule`: per-cell value of the mask accumulation loop
`for (i = 0; i <= 26; i++)` over `newState = zeros + birth/survival masks`
(`deadMask` is `state < 0.5`, `aliveMask` is `state > 0.5`). -/
def standardNewState (t : RGrid) (birth survival : List Nat) (x y z : Nat) : Rat :=
  (List.range 27).foldl
    (fun acc i =>
      let acc2 :=
        if ruleArray birth i then
          (if cellAtR t x y z < 1/2 ∧ neighborCount t x y z = (i : Rat) then acc + 1 else acc)
        else acc
      if ruleArray survival i then
        (if cellAtR t x y z > 1/2 ∧ neighborCount t x y z = (i : Rat) then acc2 + 1 else acc2)
      else acc2)
    0

/-- `processBriansBrainRule`: per-cell value `birthUpdate + dyingUpdate`,
with `deadMask` `state < 0.25`, `aliveMask` `state > 0.75`, birth on
neighbour count exactly 2, and dying encoded as literal 0.5. -/
def briansBrainNewState (t : RGrid) (x y z : Nat) : Rat :=
  (if cellAtR t x y z < 1/4 ∧ neighborCount t x y z = 2 then 1 else 0) +
    (if cellAtR t x y z > 3/4 then 1/2 else 0)

/-- JS `Math.round`: floor of `q + 1/2` (halves round toward positive
infinity). -/
def jsRound (q : Rat) : Int := ⌊q + 1/2⌋

/-- `computeNextGeneration`: select the kernel for the current rule, run one
generation, and decode the resulting tensor into the canonical integer grid
(threshold decode for the special rule, `Math.round` otherwise).  The
wildcard arm of the rule match is unreachable: the two non-B/S rule names are
dispatched by name first and the table fallback is the `conway3d` pair. -/
def computeNextGeneration (t : RGrid) (ruleName : String) : Grid3 :=
  let nextGen : RGrid :=
    if ruleName = "briansbrain3d" then
      buildRGrid t.length (t.headD []).length ((t.headD []).headD []).length
        (fun x y z => briansBrainNewState t x y z)
    else if ruleName = "checkerboard" then
      t
    else
      match (RULE_DEFINITIONS ruleName).getD (.bs [5, 6, 7] [4, 5, 6]) with
      | .bs birth survival =>
        buildRGrid t.length (t.headD []).length ((t.headD []).headD []).length
          (fun x y z => standardNewState t birth survival x y z)
      | _ => t
  buildGrid nextGen.length (nextGen.headD []).length ((nextGen.headD []).headD []).length
    (fun x y z =>
      if ruleName = "briansbrain3d" then
        (if cellAtR nextGen x y z > 3/4 then 1
         else if cellAtR nextGen x y z > 1/4 then 2
         else 0)
      else jsRound (cellAtR nextGen x y z))

/-- `calculateNextGeneration3DTF(currentGrid, ruleName)`: per-call behaviour
of the exported driver — the invalid-grid guard, then upload, one
generation, decode. -/
def calculateNextGeneration3DTF (g : Grid3) (ruleName : String) : Grid3 :=
  if g.length = 0 ∨ (g.headD []).length = 0 ∨ ((g.headD []).headD []).length = 0 then
    createEmpty3DGrid 1 1 1
  else computeNextGeneration (gridTensorOf g) ruleName

end AutomataLogic3DTF

namespace AutomataLogic3DGPU

/-! ## Texture-encoded WebGL engine (`automataLogic3DGPU.js`)

The grid lives in an RGBA byte texture of width `sizeX`, height
`sizeY * sizeZ` (row block `z` holds Z-slice `z`); the red channel carries
the state byte.  The texture is modelled by its logical 3D byte content:
fragment coordinates and the `getCellState` arithmetic place every sample at
a texel centre (all positions are half-integers), `mod` wraps each axis
toroidally, and nearest filtering then reads the byte at the wrapped 3D
coordinate — so a byte grid indexed by `(x, y, z)` with wrapped reads is an
exact model of the texture addressing.

A sampled byte `b` is the shader float `b / 255`; every threshold comparison
below has margin at least `1/1020`, far above float32 error, so exact
rationals model the shader floats.  A fragment output `v ∈ [0,1]` is stored
as the unsigned-normalised byte `round(v * 255)`; for the single tie case
`v = 0.5` (dying, `127.5`) the GL specification leaves the direction
implementation-defined and this model fixes round-half-up (byte `128`).  No
result below depends on that choice: bytes `127` and `128` fall in the same
band of every comparison used (both encode dying, both differ from `255`,
and the readback decode collapses dying to a value that is never `2` either
way). -/

abbrev BGrid := List (List (List Nat))

/-- Red-channel byte at texel `(x, y, z)`. -/
def byteAt (t : BGrid) (x y z : Nat) : Nat := ((t.getD x []).getD y []).getD z 0

/-- Per-texel render pass filling the paired render target. -/
def buildBGrid (X Y Z : Nat) (f : Nat → Nat → Nat → Nat) : BGrid :=
  (List.range X).map fun x =>
    (List.range Y).map fun y =>
      (List.range Z).map fun z => f x y z

/-- JS `ToUint8`, as performed by a `Uint8Array` store: the integer modulo
256 (`Uint8Array` wraps; it does not clamp). -/
def toUint8 (n : Int) : Nat := (n % 256).toNat

/-- Texture upload (`initialize`, and the update path of the exported
driver): red channel `grid[x][y][z] * 255` stored through a `Uint8Array`. -/
def textureOf (g : Grid3) : BGrid :=
  g.map fun plane => plane.map fun row => row.map fun (v : Cell) => toUint8 (v * 255)

/-- Unsigned-normalised byte store of a shader output value:
`round(v * 255)`, half-up (see the module comment on the tie). -/
def roundUnorm (v : Rat) : Nat := (⌊v * 255 + 1/2⌋).toNat

/-- `getCellState(pos)` for a neighbour offset position: wrap each axis with
`mod`, then sample the texel and view the byte as `byte / 255`. -/
def getCellState (t : BGrid) (x y z : Int) : Rat :=
  (byteAt t (specWrap t.length x) (specWrap (t.headD []).length y)
    (specWrap ((t.headD []).headD []).length z) : Rat) / 255

/-- The standard-rule fragment shader at one texel: float neighbour sum over
the 26 offsets, `floor`, the `3..10` window, and the 8-slot birth/survival
uniform arrays (`arr[v-3] = 1` for rule values `3 ≤ v ≤ 10`, so slot
`idx = floor(neighbors) - 3` is hot exactly when `floor(neighbors)` is in
the rule list). -/
def standardShaderByte (t : BGrid) (birth survival : List Nat) (x y z : Nat) : Nat :=
  let currentState := getCellState t x y z
  let neighbors : Rat :=
    (mooreOffsets.map fun o =>
      getCellState t ((x : Int) + o.1) ((y : Int) + o.2.1) ((z : Int) + o.2.2)).sum
  let fn : Int := ⌊neighbors⌋
  let newState : Rat :=
    if currentState > 1/2 then
      (if 3 ≤ fn ∧ fn ≤ 10 then (if survival.contains fn.toNat then 1 else 0) else 0)
    else
      (if 3 ≤ fn ∧ fn ≤ 10 then (if birth.contains fn.toNat then 1 else 0) else 0)
  roundUnorm newState

/-- The Brians Brain fragment shader at one texel: dead below `0.25`, alive
above `0.75`; a dead texel counts neighbours with state above `0.75` and
becomes alive when the count lies in `[1.5, 2.5]`; an alive texel becomes
`0.5` (dying); anything else becomes `0`. -/
def briansBrainShaderByte (t : BGrid) (x y z : Nat) : Nat :=
  let currentState := getCellState t x y z
  let newState : Rat :=
    if currentState < 1/4 then
      let onNeighbors : Rat :=
        (mooreOffsets.map fun o =>
          if getCellState t ((x : Int) + o.1) ((y : Int) + o.2.1) ((z : Int) + o.2.2) > 3/4
          then (1 : Rat) else 0).sum
      (if 3/2 ≤ onNeighbors ∧ onNeighbors ≤ 5/2 then 1 else 0)
    else if currentState > 3/4 then 1/2
    else 0
  roundUnorm newState

/-- `computeNextGeneration` and its readback: select the shader for the
current rule (the copy shader reproduces every texel byte exactly:
`round((b/255) * 255) = b`), render one pass, then decode each red byte with
`pixelBuffer[index] > 127 ? 1 : 0`.  The wildcard arm of the rule match is
unreachable (non-B/S rule names are dispatched by name first). -/
def computeNextGeneration (t : BGrid) (ruleName : String) : Grid3 :=
  let out : BGrid :=
    if ruleName = "briansbrain3d" then
      buildBGrid t.length (t.headD []).length ((t.headD []).headD []).length
        (fun x y z => briansBrainShaderByte t x y z)
    else if ruleName = "checkerboard" then
      t
    else
      match (RULE_DEFINITIONS ruleName).getD (.bs [5, 6, 7] [4, 5, 6]) with
      | .bs birth survival =>
        buildBGrid t.length (t.headD []).length ((t.headD []).headD []).length
          (fun x y z => standardShaderByte t birth survival x y z)
      | _ => t
  buildGrid t.length (t.headD []).length ((t.headD []).headD []).length
    (fun x y z => if byteAt out x y z > 127 then 1 else 0)

/-- `calculateNextGeneration3DGPU(currentGrid, ruleName)`: per-call behaviour
of the exported driver — the invalid-grid guard, texture upload, one
generation, readback decode. -/
def calculateNextGeneration3DGPU (g : Grid3) (ruleName : String) : Grid3 :=
  if g.length = 0 ∨ (g.headD []).length = 0 ∨ ((g.headD []).headD []).length = 0 then
    createEmpty3DGrid 1 1 1
  else computeNextGeneration (textureOf g) ruleName

/-- `initialize` of the texture engine: the flat RGBA pixel buffer, filled
z-outer, then y, then x, with `[state*255, 0, 0, 255]` per cell, at byte
index `(z * sizeX*sizeY + y * sizeX + x) * 4`, through a `Uint8Array`. -/
def textureDataOf (g : Grid3) : List Nat :=
  (List.range ((g.headD []).headD []).length).flatMap fun z =>
    (List.range (g.headD []).length).flatMap fun y =>
      (List.range g.length).flatMap fun x =>
        [toUint8 (cellAt g x y z * 255), 0, 0, 255]

end AutomataLogic3DGPU

namespace AutomataLogic3DWEBGPU

/-! ## Compute-buffer WebGPU engine (`automataLogic3DWEBGPU.js`) — the
storage-buffer marshaling checked by the claims. -/

/-- JS `ToUint32`, as performed by a `Uint32Array` store. -/
def toUint32 (n : Int) : Nat := (n % 4294967296).toNat

/-- `setupBuffers`: flatten the grid into the `cellStateArray` storage
buffer with `cellIndex++` in loop order z-outer, then y, then x. -/
def cellStateArrayOf (g : Grid3) : List Nat :=
  (List.range ((g.headD []).headD []).length).flatMap fun z =>
    (List.range (g.headD []).length).flatMap fun y =>
      (List.range g.length).map fun x => toUint32 (cellAt g x y z)

end AutomataLogic3DWEBGPU

namespace AutomataLogic3DTF

/-- `initialize`/`updateGrid`: the flat `Float32Array` backing the tensor,
filled with `flatData[i++]` in loop order x-outer, then y, then z (cell
values are small integers, exact in float32, kept as `Cell`). -/
def flatDataOf (g : Grid3) : List Cell :=
  (List.range g.length).flatMap fun x =>
    (List.range (g.headD []).length).flatMap fun y =>
      (List.range ((g.headD []).headD []).length).map fun z => cellAt g x y z

end AutomataLogic3DTF

namespace AutomataLogic3D

/-- JS write `grid[x][y][z] = v` at arbitrary (possibly negative) integer
indices, as the pattern generator performs it: an out-of-range outer or
middle index makes the next indexing step throw a `TypeError`; an
out-of-range innermost index does not throw — a negative `z` becomes a plain
object property and a too-large `z` extends the row with holes, in both
cases leaving the canonical `sizeX × sizeY × sizeZ` cells unchanged (and no
later read in this module touches such an extension), so the model keeps the
canonical cells unchanged. -/
def writeCell (g : Grid3) (x y z : Int) (v : Cell) : Except Unit Grid3 :=
  if 0 ≤ x ∧ x < (g.length : Int) then
    let plane := g.getD x.toNat []
    if 0 ≤ y ∧ y < (plane.length : Int) then
      let row := plane.getD y.toNat []
      if 0 ≤ z ∧ z < (row.length : Int) then
        .ok (g.set x.toNat (plane.set y.toNat (row.set z.toNat v)))
      else .ok g
    else .error ()
  else .error ()

/-- The inclusive integer range `lo..hi` of a JS `for (let i = lo; i <= hi;
i++)` loop. -/
def intRangeIncl (lo hi : Int) : List Int :=
  (List.range (hi - lo + 1).toNat).map fun k => lo + (k : Int)

/-- `createInitial3DGrid(sizeX = 30, sizeY = 30, sizeZ = 30, pattern =
checkerboard)`.  When the caller omits the pattern argument, JS supplies
the default `checkerboard`.  `rnd x y z` models the `Math.random() < 0.3`
draw performed for the cell at `(x, y, z)` (each candidate cell draws at
most once, and only after its bounds check in the branches that have one).

The branches that loop over the whole grid (`checkerboard`, `random`,
`sphere`) only write in bounds and are modelled as direct grid builds.  The
`sphere` branch compares `|sqrt(d2) - radius| < 0.8` in floats with
`radius = min/4`; on integer `d2` this is exactly
`(5*min - 16)^2 < 400*d2` (or `5*min < 16`) and `400*d2 < (5*min + 16)^2` —
equality is impossible there (`5*min ± 16` is never divisible by 20), and
the margins exceed float error.  The centre-relative branches (`cross` and
the composite default) use the throwing `writeCell` in statement order. -/
def createInitial3DGrid (rnd : Int → Int → Int → Bool) (sizeX sizeY sizeZ : Nat)
    (pattern : String) : Except Unit Grid3 :=
  let grid := createEmpty3DGrid sizeX sizeY sizeZ
  let centerX : Int := (sizeX / 2 : Nat)
  let centerY : Int := (sizeY / 2 : Nat)
  let centerZ : Int := (sizeZ / 2 : Nat)
  if pattern = "checkerboard" ∨ pattern = "default" then
    .ok (buildGrid sizeX sizeY sizeZ fun x y z => if (x + y + z) % 2 = 0 then 1 else 0)
  else if pattern = "cross" then
    let arm : Int := min 3 ((sizeX / 4 : Nat))
    listFoldlME
      (fun grid i => do
        let g1 ← writeCell grid (centerX + i) centerY centerZ 1
        let g2 ← writeCell g1 centerX (centerY + i) centerZ 1
        writeCell g2 centerX centerY (centerZ + i) 1)
      grid (intRangeIncl (-arm) arm)
  else if pattern = "random" then
    .ok (buildGrid sizeX sizeY sizeZ fun x y z => if rnd x y z then 1 else 0)
  else if pattern = "sphere" then
    let m : Nat := min sizeX (min sizeY sizeZ)
    .ok (buildGrid sizeX sizeY sizeZ fun x y z =>
      let d2 : Int := ((x : Int) - centerX) ^ 2 + ((y : Int) - centerY) ^ 2 +
        ((z : Int) - centerZ) ^ 2
      if ((5 * (m : Int) - 16) ^ 2 < 400 * d2 ∨ 5 * (m : Int) < 16) ∧
          400 * d2 < (5 * (m : Int) + 16) ^ 2 then 1 else 0)
  else do
    let g1 ←
      listFoldlME
        (fun grid i => do
          let a ← writeCell grid (centerX + i) centerY centerZ 1
          let b ← writeCell a centerX (centerY + i) centerZ 1
          writeCell b centerX centerY (centerZ + i) 1)
        grid (intRangeIncl (-2) 2)
    let g2 ←
      listFoldlME
        (fun grid o =>
          if 2 ≤ o.1.natAbs + o.2.1.natAbs + o.2.2.natAbs then
            writeCell grid (centerX + o.1) (centerY + o.2.1) (centerZ + o.2.2) 1
          else .ok grid)
        g1
        ((intRangeIncl (-1) 1).flatMap fun bx =>
          (intRangeIncl (-1) 1).flatMap fun by2 =>
            (intRangeIncl (-1) 1).map fun bz => (bx, by2, bz))
    listFoldlME
      (fun grid c =>
        if 0 ≤ c.1 ∧ c.1 < (sizeX : Int) ∧ 0 ≤ c.2.1 ∧ c.2.1 < (sizeY : Int) ∧
            0 ≤ c.2.2 ∧ c.2.2 < (sizeZ : Int) then
          (if rnd c.1 c.2.1 c.2.2 then writeCell grid c.1 c.2.1 c.2.2 1 else .ok grid)
        else .ok grid)
      g2
      ((intRangeIncl (centerX - 4) (centerX + 4)).flatMap fun cx =>
        (intRangeIncl (centerY - 4) (centerY + 4)).flatMap fun cy =>
          (intRangeIncl (centerZ - 4) (centerZ + 4)).map fun cz => (cx, cy, cz))

end AutomataLogic3D

/-- An `N × N × N` grid whose only live cell is the corner `(0, 0, 0)` (the
configuration of the toroidal-wraparound property). -/
def cornerGrid (N : Nat) : Grid3 :=
  buildGrid N N N fun x y z => if x = 0 ∧ y = 0 ∧ z = 0 then 1 else 0

/-- The deterministic 6×6×6 `sphere` pattern of `createInitial3DGrid`:
centre `(3,3,3)`, radius `min(6,6,6)/4 = 1.5`, a cell is alive iff
`|sqrt(d2) - 1.5| < 0.8` where `d2` is its integer squared distance from the
centre.  On integer `d2` that float condition is exactly `1 ≤ d2 ≤ 5` (the
margins are at least 0.06, far above float rounding error). -/
def sphereGrid6 : Grid3 :=
  buildGrid 6 6 6 fun x y z =>
    if 1 ≤ ((x : Int) - 3) ^ 2 + ((y : Int) - 3) ^ 2 + ((z : Int) - 3) ^ 2 ∧
        ((x : Int) - 3) ^ 2 + ((y : Int) - 3) ^ 2 + ((z : Int) - 3) ^ 2 ≤ 5 then 1 else 0

/-! ## Lemmas about the embedding -/

theorem ok_bind {ε α β : Type} (a : α) (f : α → Except ε β) :
    (Except.ok a >>= f) = f a := rfl

theorem listMapME_ok {α β : Type} (l : List α) (f : α → Except Unit β) (p : α → β)
    (h : ∀ a ∈ l, f a = .ok (p a)) : listMapME f l = .ok (l.map p) := by
  induction l with
  | nil => rfl
  | cons a l ih =>
    have ha := h a (List.mem_cons_self a l)
    have ih2 := ih fun b hb => h b (List.mem_cons_of_mem a hb)
    simp [listMapME, ha, ih2, ok_bind]

theorem listFoldlME_ok {α β : Type} (l : List α) (f : β → α → Except Unit β) (p : β → α → β)
    (h : ∀ a ∈ l, ∀ b, f b a = .ok (p b a)) :
    ∀ b, listFoldlME f b l = .ok (l.foldl p b) := by
  induction l with
  | nil => intro b; rfl
  | cons a l ih =>
    intro b
    have ha := h a (List.mem_cons_self a l) b
    have ih2 := ih fun c hc => h c (List.mem_cons_of_mem a hc)
    simp [listFoldlME, ha, ih2, ok_bind]

theorem wrapIdx_lt (size : Nat) (h : 0 < size) (i : Int) : wrapIdx size i < size := by
  have hpos : (0 : Int) < (size : Int) := by exact_mod_cast h
  have h1 := Int.emod_nonneg (i + size) hpos.ne'
  have h2 := Int.emod_lt_of_pos (i + size) hpos
  unfold wrapIdx
  omega

theorem wrapIdx_eq_specWrap (size : Nat) (i : Int) : wrapIdx size i = specWrap size i := by
  unfold wrapIdx specWrap
  rw [Int.add_emod, Int.emod_self, add_zero, Int.emod_emod_of_dvd i dvd_rfl]

theorem neighborOffsets_eq_moore : AutomataLogic3D.neighborOffsets = mooreOffsets := by decide

theorem WellFormed.plane_length {g : Grid3} {X Y Z : Nat} (h : WellFormed g X Y Z) {x : Nat}
    (hx : x < g.length) : g[x].length = Y :=
  (h.2.2.2.2 g[x] (List.getElem_mem hx)).1

theorem WellFormed.row_length {g : Grid3} {X Y Z : Nat} (h : WellFormed g X Y Z) {x y : Nat}
    (hx : x < g.length) (hy : y < g[x].length) : g[x][y].length = Z :=
  (h.2.2.2.2 g[x] (List.getElem_mem hx)).2 g[x][y] (List.getElem_mem hy)

theorem wf_sizeY {g : Grid3} {X Y Z : Nat} (hwf : WellFormed g X Y Z) :
    (g.headD []).length = Y := by
  obtain ⟨hlen, hX, hY, hZ, hall⟩ := hwf
  cases g with
  | nil => simp at hlen; omega
  | cons p l => exact (hall p (List.mem_cons_self p l)).1

theorem wf_sizeZ {g : Grid3} {X Y Z : Nat} (hwf : WellFormed g X Y Z) :
    ((g.headD []).headD []).length = Z := by
  obtain ⟨hlen, hX, hY, hZ, hall⟩ := hwf
  cases g with
  | nil => simp at hlen; omega
  | cons p l =>
    have hp := hall p (List.mem_cons_self p l)
    cases p with
    | nil => simp at hp; omega
    | cons r rl => exact hp.2 r (List.mem_cons_self r rl)

theorem cellAt_eq_getElem {g : Grid3} {x y z : Nat} (hx : x < g.length)
    (hy : y < g[x].length) (hz : z < g[x][y].length) :
    cellAt g x y z = g[x][y][z] := by
  simp [cellAt, List.getD_eq_getElem?_getD, List.getElem?_eq_getElem, hx, hy, hz]

theorem readCell_wf {g : Grid3} {X Y Z : Nat} (hwf : WellFormed g X Y Z) {x y z : Nat}
    (hx : x < X) (hy : y < Y) (hz : z < Z) :
    AutomataLogic3D.readCell g x y z = .ok (some (cellAt g x y z)) := by
  have hx' : x < g.length := by rw [hwf.1]; exact hx
  have hy' : y < g[x].length := by rw [hwf.plane_length hx']; exact hy
  have hz' : z < g[x][y].length := by rw [hwf.row_length hx' hy']; exact hz
  simp [AutomataLogic3D.readCell, List.getElem?_eq_getElem, hx', hy', hz',
    cellAt_eq_getElem hx' hy' hz']

theorem length_buildGrid (X Y Z : Nat) (f : Nat → Nat → Nat → Cell) :
    (buildGrid X Y Z f).length = X := by simp [buildGrid]

theorem buildGrid_wf (X Y Z : Nat) (f : Nat → Nat → Nat → Cell)
    (hX : 0 < X) (hY : 0 < Y) (hZ : 0 < Z) :
    WellFormed (buildGrid X Y Z f) X Y Z := by
  refine ⟨by simp [buildGrid], hX, hY, hZ, ?_⟩
  intro p hp
  simp only [buildGrid, List.mem_map] at hp
  obtain ⟨x, hx, rfl⟩ := hp
  refine ⟨by simp, ?_⟩
  intro r hr
  simp only [List.mem_map] at hr
  obtain ⟨y, hy, rfl⟩ := hr
  simp

theorem cellAt_buildGrid {X Y Z : Nat} {f : Nat → Nat → Nat → Cell} {x y z : Nat}
    (hx : x < X) (hy : y < Y) (hz : z < Z) :
    cellAt (buildGrid X Y Z f) x y z = f x y z := by
  simp [cellAt, buildGrid, List.getD_eq_getElem?_getD, List.getElem?_map,
    List.getElem?_range, hx, hy, hz]

theorem range_map_getElem_eq {α : Type} (l : List α) (f : Nat → α)
    (h : ∀ (i : Nat) (hi : i < l.length), f i = l[i]) :
    (List.range l.length).map f = l := by
  apply List.ext_getElem
  · simp
  · intro i h1 h2
    simp only [List.getElem_map, List.getElem_range]
    exact h i h2

theorem buildGrid_cellAt {g : Grid3} {X Y Z : Nat} (hwf : WellFormed g X Y Z) :
    buildGrid X Y Z (fun x y z => cellAt g x y z) = g := by
  obtain ⟨hlen, hX, hY, hZ, hall⟩ := hwf
  subst hlen
  unfold buildGrid
  apply range_map_getElem_eq
  intro x hx
  have hplane : g[x].length = Y := (hall _ (List.getElem_mem hx)).1
  rw [show Y = g[x].length from hplane.symm]
  apply range_map_getElem_eq
  intro y hy
  have hrow : g[x][y].length = Z :=
    (hall _ (List.getElem_mem hx)).2 _ (List.getElem_mem hy)
  rw [show Z = g[x][y].length from hrow.symm]
  apply range_map_getElem_eq
  intro z hz
  exact cellAt_eq_getElem hx hy hz

theorem foldl_count_eq_countP {α : Type} (l : List α) (p : α → Prop) [DecidablePred p] :
    l.foldl (fun c a => if p a then c + 1 else c) 0 = l.countP (fun a => decide (p a)) := by
  suffices h : ∀ n : Nat, l.foldl (fun c a => if p a then c + 1 else c) n
      = n + l.countP (fun a => decide (p a)) by simpa using h 0
  induction l with
  | nil => intro n; simp
  | cons a l ih =>
    intro n
    by_cases hpa : p a
    · simp [List.countP_cons, hpa, ih]; omega
    · simp [List.countP_cons, hpa, ih]

theorem countLiveNeighbors3D_wf {g : Grid3} {X Y Z : Nat} (hwf : WellFormed g X Y Z)
    (x y z : Nat) :
    AutomataLogic3D.countLiveNeighbors3D g x y z = .ok (specNeighborCount g X Y Z x y z) := by
  have hX : 0 < X := hwf.2.1
  have hY : 0 < Y := hwf.2.2.1
  have hZ : 0 < Z := hwf.2.2.2.1
  have hsX : g.length = X := hwf.1
  have hsY := wf_sizeY hwf
  have hsZ := wf_sizeZ hwf
  unfold AutomataLogic3D.countLiveNeighbors3D
  rw [hsX, hsY, hsZ]
  rw [listFoldlME_ok AutomataLogic3D.neighborOffsets _
    (fun c o => if cellAt g (wrapIdx X ((x : Int) + o.1)) (wrapIdx Y ((y : Int) + o.2.1))
      (wrapIdx Z ((z : Int) + o.2.2)) = 1 then c + 1 else c)
    (fun o _ c => by
      rw [readCell_wf hwf (wrapIdx_lt X hX _) (wrapIdx_lt Y hY _) (wrapIdx_lt Z hZ _), ok_bind]
      simp only [pure, Except.pure, Option.some.injEq]) 0]
  rw [foldl_count_eq_countP]
  simp only [wrapIdx_eq_specWrap, neighborOffsets_eq_moore, specNeighborCount]

/-- Claim C1: for every well-formed grid and every birth/survival rule entry,
the CPU engine sets each output cell to alive exactly when the rule says so:
a live cell (value `1`) survives iff its count of toroidally wrapped
26-neighbours equal to `1` lies in the survival set, a non-`1` cell is born
iff that count lies in the birth set, and the cell is `0` otherwise. -/
theorem claim1_cpu_step_matches_bs_semantics
    (g : Grid3) (X Y Z : Nat) (ruleName : String) (birth survival : List Nat)
    (hwf : WellFormed g X Y Z)
    (hrule : RULE_DEFINITIONS ruleName = some (.bs birth survival)) :
    AutomataLogic3D.calculateNextGeneration3D (some g) ruleName =
      .ok (buildGrid X Y Z fun x y z =>
        if cellAt g x y z = 1 then
          (if specNeighborCount g X Y Z x y z ∈ survival then 1 else 0)
        else
          (if specNeighborCount g X Y Z x y z ∈ birth then 1 else 0)) := by
  have hX : 0 < X := hwf.2.1
  have hY : 0 < Y := hwf.2.2.1
  have hZ : 0 < Z := hwf.2.2.2.1
  have hsX : g.length = X := hwf.1
  have hsY := wf_sizeY hwf
  have hsZ := wf_sizeZ hwf
  have hbb : ruleName ≠ "briansbrain3d" := by
    rintro rfl
    rw [show RULE_DEFINITIONS "briansbrain3d" = some .special from by decide] at hrule
    simp at hrule
  have hcb : ruleName ≠ "checkerboard" := by
    rintro rfl
    rw [show RULE_DEFINITIONS "checkerboard" = some .static from by decide] at hrule
    simp at hrule
  have hguard : ¬(g.length = 0 ∨ (g.headD []).length = 0 ∨ ((g.headD []).headD []).length = 0) := by
    rw [hsX, hsY, hsZ]; push_neg; omega
  simp only [AutomataLogic3D.calculateNextGeneration3D]
  rw [if_neg hguard, if_neg hbb, if_neg hcb, hrule]
  simp only [Option.getD_some]
  rw [hsX, hsY, hsZ]
  have hcell : ∀ x ∈ List.range X, ∀ y ∈ List.range Y, ∀ z ∈ List.range Z,
      (do
        let liveNeighbors ← AutomataLogic3D.countLiveNeighbors3D g x y z
        let cv ← AutomataLogic3D.readCell g x y z
        pure (if cv = some 1 then
                (if survival.contains liveNeighbors then (1 : Cell) else 0)
              else
                (if birth.contains liveNeighbors then 1 else 0)) : Except Unit Cell) =
      .ok (if cellAt g x y z = 1 then
            (if specNeighborCount g X Y Z x y z ∈ survival then 1 else 0)
          else
            (if specNeighborCount g X Y Z x y z ∈ birth then 1 else 0)) := by
    intro x hx y hy z hz
    rw [countLiveNeighbors3D_wf hwf, ok_bind,
      readCell_wf hwf (List.mem_range.mp hx) (List.mem_range.mp hy) (List.mem_range.mp hz),
      ok_bind]
    simp only [pure, Except.pure, Option.some.injEq, List.contains, List.elem_eq_mem,
      decide_eq_true_eq]
  rw [listMapME_ok (List.range X) _ (fun x =>
      (List.range Y).map fun y => (List.range Z).map fun z =>
        if cellAt g x y z = 1 then
          (if specNeighborCount g X Y Z x y z ∈ survival then (1 : Cell) else 0)
        else
          (if specNeighborCount g X Y Z x y z ∈ birth then 1 else 0))
    (fun x hx => by
      rw [listMapME_ok (List.range Y) _ (fun y =>
          (List.range Z).map fun z =>
            if cellAt g x y z = 1 then
              (if specNeighborCount g X Y Z x y z ∈ survival then (1 : Cell) else 0)
            else
              (if specNeighborCount g X Y Z x y z ∈ birth then 1 else 0))
        (fun y hy => by
          rw [listMapME_ok (List.range Z) _ _ (fun z hz => hcell x hx y hy z hz)])])]
  rfl

/-- Witness for claim C1 at a concrete 2×2×2 grid and the `conway3d` rule. -/
theorem claim1_witness :
    WellFormed [[[1, 0], [0, 0]], [[0, 1], [0, 0]]] 2 2 2 ∧
    RULE_DEFINITIONS "conway3d" = some (.bs [5, 6, 7] [4, 5, 6]) ∧
    AutomataLogic3D.calculateNextGeneration3D (some [[[1, 0], [0, 0]], [[0, 1], [0, 0]]])
        "conway3d" =
      .ok (buildGrid 2 2 2 fun x y z =>
        if cellAt [[[1, 0], [0, 0]], [[0, 1], [0, 0]]] x y z = 1 then
          (if specNeighborCount [[[1, 0], [0, 0]], [[0, 1], [0, 0]]] 2 2 2 x y z ∈
              [4, 5, 6] then 1 else 0)
        else
          (if specNeighborCount [[[1, 0], [0, 0]], [[0, 1], [0, 0]]] 2 2 2 x y z ∈
              [5, 6, 7] then 1 else 0)) :=
  ⟨by decide, by decide,
    claim1_cpu_step_matches_bs_semantics _ 2 2 2 "conway3d" [5, 6, 7] [4, 5, 6]
      (by decide) (by decide)⟩

theorem map3_length {β : Type} (g : Grid3) (f : Cell → β) :
    (g.map fun plane => plane.map fun row => row.map f).length = g.length := by simp

theorem map3_sizeY {β : Type} {g : Grid3} {X Y Z : Nat} (hwf : WellFormed g X Y Z)
    (f : Cell → β) :
    ((g.map fun plane => plane.map fun row => row.map f).headD []).length = Y := by
  obtain ⟨hlen, hX, hY, hZ, hall⟩ := hwf
  cases g with
  | nil => simp at hlen; omega
  | cons p l => simpa using (hall p (List.mem_cons_self p l)).1

theorem map3_sizeZ {β : Type} {g : Grid3} {X Y Z : Nat} (hwf : WellFormed g X Y Z)
    (f : Cell → β) :
    (((g.map fun plane => plane.map fun row => row.map f).headD []).headD []).length = Z := by
  obtain ⟨hlen, hX, hY, hZ, hall⟩ := hwf
  cases g with
  | nil => simp at hlen; omega
  | cons p l =>
    have hp := hall p (List.mem_cons_self p l)
    cases p with
    | nil => simp at hp; omega
    | cons r rs => simpa using hp.2 r (List.mem_cons_self r rs)

theorem cellAt_map3 {β : Type} {g : Grid3} {X Y Z : Nat} (hwf : WellFormed g X Y Z)
    (f : Cell → β) (d : β) {x y z : Nat} (hx : x < X) (hy : y < Y) (hz : z < Z) :
    ((((g.map fun plane => plane.map fun row => row.map f).getD x []).getD y []).getD z d)
      = f (cellAt g x y z) := by
  have hx' : x < g.length := by rw [hwf.1]; exact hx
  have hy' : y < g[x].length := by rw [hwf.plane_length hx']; exact hy
  have hz' : z < g[x][y].length := by rw [hwf.row_length hx' hy']; exact hz
  rw [cellAt_eq_getElem hx' hy' hz']
  simp [List.getD_eq_getElem?_getD, List.getElem?_map, List.getElem?_eq_getElem, hx', hy', hz']

theorem buildGrid_congr (X Y Z : Nat) (f1 f2 : Nat → Nat → Nat → Cell)
    (h : ∀ x < X, ∀ y < Y, ∀ z < Z, f1 x y z = f2 x y z) :
    buildGrid X Y Z f1 = buildGrid X Y Z f2 := by
  unfold buildGrid
  refine List.map_congr_left fun x hx => ?_
  refine List.map_congr_left fun y hy => ?_
  refine List.map_congr_left fun z hz => ?_
  exact h x (List.mem_range.mp hx) y (List.mem_range.mp hy) z (List.mem_range.mp hz)

theorem jsRound_intCast (n : Int) : AutomataLogic3DTF.jsRound ((n : Int) : Rat) = n := by
  unfold AutomataLogic3DTF.jsRound
  rw [Int.floor_eq_iff]
  constructor
  · linarith [show (0 : Rat) < 1/2 from by norm_num]
  · linarith [show (1/2 : Rat) < 1 from by norm_num]

theorem cellAtR_gridTensorOf {g : Grid3} {X Y Z : Nat} (hwf : WellFormed g X Y Z)
    {x y z : Nat} (hx : x < X) (hy : y < Y) (hz : z < Z) :
    AutomataLogic3DTF.cellAtR (AutomataLogic3DTF.gridTensorOf g) x y z
      = ((cellAt g x y z : Int) : Rat) := by
  unfold AutomataLogic3DTF.cellAtR AutomataLogic3DTF.gridTensorOf
  exact cellAt_map3 hwf (fun v => ((v : Int) : Rat)) 0 hx hy hz

theorem byteAt_textureOf {g : Grid3} {X Y Z : Nat} (hwf : WellFormed g X Y Z)
    {x y z : Nat} (hx : x < X) (hy : y < Y) (hz : z < Z) :
    AutomataLogic3DGPU.byteAt (AutomataLogic3DGPU.textureOf g) x y z
      = AutomataLogic3DGPU.toUint8 (cellAt g x y z * 255) := by
  unfold AutomataLogic3DGPU.byteAt AutomataLogic3DGPU.textureOf
  exact cellAt_map3 hwf (fun v => AutomataLogic3DGPU.toUint8 (v * 255)) 0 hx hy hz

theorem wf_guard_false {g : Grid3} {X Y Z : Nat} (hwf : WellFormed g X Y Z) :
    ¬(g.length = 0 ∨ (g.headD []).length = 0 ∨ ((g.headD []).headD []).length = 0) := by
  rw [hwf.1, wf_sizeY hwf, wf_sizeZ hwf]
  have h1 := hwf.2.1
  have h2 := hwf.2.2.1
  have h3 := hwf.2.2.2.1
  push_neg
  omega

theorem cpu_static_identity {g : Grid3} {X Y Z : Nat} (hwf : WellFormed g X Y Z) :
    AutomataLogic3D.calculateNextGeneration3D (some g) "checkerboard" = .ok g := by
  have hsX : g.length = X := hwf.1
  have hsY := wf_sizeY hwf
  have hsZ := wf_sizeZ hwf
  simp only [AutomataLogic3D.calculateNextGeneration3D]
  rw [if_neg (wf_guard_false hwf)]
  simp only [if_true]
  rw [hsX, hsY, hsZ]
  have hcell : ∀ x ∈ List.range X, ∀ y ∈ List.range Y, ∀ z ∈ List.range Z,
      (do
        let v ← AutomataLogic3D.readCell g x y z
        match v with
        | some c => pure c
        | none => Except.error () : Except Unit Cell) = .ok (cellAt g x y z) := by
    intro x hx y hy z hz
    rw [readCell_wf hwf (List.mem_range.mp hx) (List.mem_range.mp hy) (List.mem_range.mp hz),
      ok_bind]
    rfl
  rw [listMapME_ok (List.range X) _ (fun x => (List.range Y).map fun y =>
      (List.range Z).map fun z => cellAt g x y z)
    (fun x hx => by
      rw [listMapME_ok (List.range Y) _ (fun y => (List.range Z).map fun z => cellAt g x y z)
        (fun y hy => by
          rw [listMapME_ok (List.range Z) _ _ (fun z hz => hcell x hx y hy z hz)])])]
  rw [show ((List.range X).map fun x => (List.range Y).map fun y =>
        (List.range Z).map fun z => cellAt g x y z)
      = buildGrid X Y Z (fun x y z => cellAt g x y z) from rfl,
    buildGrid_cellAt hwf]
  rw [if_neg (show ¬("checkerboard" = "briansbrain3d") from by decide)]

theorem tf_static_identity {g : Grid3} {X Y Z : Nat} (hwf : WellFormed g X Y Z) :
    AutomataLogic3DTF.calculateNextGeneration3DTF g "checkerboard" = g := by
  simp only [AutomataLogic3DTF.calculateNextGeneration3DTF]
  rw [if_neg (wf_guard_false hwf)]
  simp only [AutomataLogic3DTF.computeNextGeneration,
    eq_false (show ¬("checkerboard" = "briansbrain3d") from by decide),
    eq_self_iff_true, if_false, if_true]
  have hl : (AutomataLogic3DTF.gridTensorOf g).length = X := by
    simpa [AutomataLogic3DTF.gridTensorOf] using
      (map3_length g (fun v => ((v : Int) : Rat))).trans hwf.1
  have hY2 : ((AutomataLogic3DTF.gridTensorOf g).headD []).length = Y := by
    simpa [AutomataLogic3DTF.gridTensorOf] using map3_sizeY hwf (fun v => ((v : Int) : Rat))
  have hZ2 : (((AutomataLogic3DTF.gridTensorOf g).headD []).headD []).length = Z := by
    simpa [AutomataLogic3DTF.gridTensorOf] using map3_sizeZ hwf (fun v => ((v : Int) : Rat))
  rw [hl, hY2, hZ2]
  rw [buildGrid_congr X Y Z _ (fun x y z => cellAt g x y z) (fun x hx y hy z hz => by
    rw [cellAtR_gridTensorOf hwf hx hy hz, jsRound_intCast])]
  exact buildGrid_cellAt hwf

theorem gl_static_identity {g : Grid3} {X Y Z : Nat} (hwf : WellFormed g X Y Z)
    (h01 : ∀ p ∈ g, ∀ r ∈ p, ∀ v ∈ r, v = 0 ∨ v = 1) :
    AutomataLogic3DGPU.calculateNextGeneration3DGPU g "checkerboard" = g := by
  simp only [AutomataLogic3DGPU.calculateNextGeneration3DGPU]
  rw [if_neg (wf_guard_false hwf)]
  simp only [AutomataLogic3DGPU.computeNextGeneration,
    eq_false (show ¬("checkerboard" = "briansbrain3d") from by decide),
    eq_self_iff_true, if_false, if_true]
  have hl : (AutomataLogic3DGPU.textureOf g).length = X := by
    simpa [AutomataLogic3DGPU.textureOf] using
      (map3_length g (fun v => AutomataLogic3DGPU.toUint8 (v * 255))).trans hwf.1
  have hY2 : ((AutomataLogic3DGPU.textureOf g).headD []).length = Y := by
    simpa [AutomataLogic3DGPU.textureOf] using
      map3_sizeY hwf (fun v => AutomataLogic3DGPU.toUint8 (v * 255))
  have hZ2 : (((AutomataLogic3DGPU.textureOf g).headD []).headD []).length = Z := by
    simpa [AutomataLogic3DGPU.textureOf] using
      map3_sizeZ hwf (fun v => AutomataLogic3DGPU.toUint8 (v * 255))
  rw [hl, hY2, hZ2]
  rw [buildGrid_congr X Y Z _ (fun x y z => cellAt g x y z) (fun x hx y hy z hz => by
    simp only []
    rw [byteAt_textureOf hwf hx hy hz]
    have hx' : x < g.length := by rw [hwf.1]; exact hx
    have hy' : y < g[x].length := by rw [hwf.plane_length hx']; exact hy
    have hz' : z < g[x][y].length := by rw [hwf.row_length hx' hy']; exact hz
    have hv := h01 g[x] (List.getElem_mem hx') g[x][y] (List.getElem_mem hy')
      g[x][y][z] (List.getElem_mem hz')
    rw [cellAt_eq_getElem hx' hy' hz']
    rcases hv with h | h <;> rw [h] <;> try decide)]
  exact buildGrid_cellAt hwf

/-- Claim C3 (counterexample): on the texture-encoded WebGL backend the
static-rule step is not the identity on three-state grids — a cell with
value 2 encodes to byte 254 (`2*255` through a `Uint8Array` wraps modulo
256), the copy shader preserves it, and the readback decode `> 127 ? 1 : 0`
returns 1, not 2. -/
theorem claim3_counterexample :
    AutomataLogic3DGPU.calculateNextGeneration3DGPU [[[2]]] "checkerboard" = [[[1]]] := by
  with_unfolding_all decide

/-- Claim C3 (amended): for the static `checkerboard` rule the step is the
identity on the CPU engine and the tensor engine for every well-formed grid
(any integer cell values, hence in particular values in {0,1,2}); on the
texture-encoded WebGL engine it is the identity only for grids whose cells
are all 0 or 1 — a value-2 cell comes back as 1 (see the counterexample). -/
theorem claim3_static_identity_amended :
    (∀ (g : Grid3) (X Y Z : Nat), WellFormed g X Y Z →
      AutomataLogic3D.calculateNextGeneration3D (some g) "checkerboard" = .ok g) ∧
    (∀ (g : Grid3) (X Y Z : Nat), WellFormed g X Y Z →
      AutomataLogic3DTF.calculateNextGeneration3DTF g "checkerboard" = g) ∧
    (∀ (g : Grid3) (X Y Z : Nat), WellFormed g X Y Z →
      (∀ p ∈ g, ∀ r ∈ p, ∀ v ∈ r, v = 0 ∨ v = 1) →
      AutomataLogic3DGPU.calculateNextGeneration3DGPU g "checkerboard" = g) :=
  ⟨fun _ _ _ _ hwf => cpu_static_identity hwf,
   fun _ _ _ _ hwf => tf_static_identity hwf,
   fun _ _ _ _ hwf h01 => gl_static_identity hwf h01⟩

/-- Witness for claim C3 at a concrete 1×2×2 grid (with a value-2 cell for
the CPU and tensor parts, and a 0/1 grid for the WebGL part). -/
theorem claim3_witness :
    AutomataLogic3D.calculateNextGeneration3D (some [[[2, 0], [1, 0]]]) "checkerboard"
      = .ok [[[2, 0], [1, 0]]] ∧
    AutomataLogic3DTF.calculateNextGeneration3DTF [[[2, 0], [1, 0]]] "checkerboard"
      = [[[2, 0], [1, 0]]] ∧
    AutomataLogic3DGPU.calculateNextGeneration3DGPU [[[1, 0], [1, 0]]] "checkerboard"
      = [[[1, 0], [1, 0]]] :=
  ⟨claim3_static_identity_amended.1 [[[2, 0], [1, 0]]] 1 2 2 (by decide),
   claim3_static_identity_amended.2.1 [[[2, 0], [1, 0]]] 1 2 2 (by decide),
   claim3_static_identity_amended.2.2 [[[1, 0], [1, 0]]] 1 2 2 (by decide) (by decide)⟩

/-- Claim C2 (failing input): the tensor engine does not reproduce toroidal
wrap — `tf.conv3d` with `same` padding pads with zeros.  On the 6×6×6 sphere
grid with rule `conway3d`, after one generation the CPU engine leaves the
boundary cell `(0,3,3)` dead (its toroidal count is 10, from five live cells
at `x = 1` and, via wraparound, five at `x = 5`), while the tensor engine
births it (its zero-padded count is 5, which is in the birth set): the alive
sets already differ at generation 1. -/
theorem claim2_tf_zero_padding_diverges_from_cpu :
    Except.map (fun g => cellAt g 0 3 3)
        (AutomataLogic3D.calculateNextGeneration3D (some sphereGrid6) "conway3d") = .ok 0 ∧
    cellAt (AutomataLogic3DTF.calculateNextGeneration3DTF sphereGrid6 "conway3d") 0 3 3 = 1 :=
  ⟨by decide, by with_unfolding_all decide⟩

/-- Claim C4 (failing input): the special-rule cycle holds on the CPU engine
(value 1 becomes 2, and 2 becomes 0), but the tensor engine re-encodes the
canonical dying value 2 as a tensor 2.0, which its alive mask (`> 0.75`)
classifies as alive, so a dying cell yields 2 again instead of 0: after two
steps from `[[[1]]]` the tensor engine still reports 2 where the claim (and
the CPU engine) require 0. -/
theorem claim4_tf_dying_cell_never_dies :
    AutomataLogic3D.calculateNextGeneration3D (some [[[1]]]) "briansbrain3d" = .ok [[[2]]] ∧
    AutomataLogic3D.calculateNextGeneration3D (some [[[2]]]) "briansbrain3d" = .ok [[[0]]] ∧
    AutomataLogic3DTF.calculateNextGeneration3DTF [[[1]]] "briansbrain3d" = [[[2]]] ∧
    AutomataLogic3DTF.calculateNextGeneration3DTF
        (AutomataLogic3DTF.calculateNextGeneration3DTF [[[1]]] "briansbrain3d")
        "briansbrain3d" = [[[2]]] :=
  ⟨by decide, by decide, by with_unfolding_all decide, by with_unfolding_all decide⟩

/-- Claim C5 (failing input): after a special-rule step of the WebGL texture
engine on `[[[1]]]`, the cell is dying in the internal encoding (byte 128,
which lies strictly inside the dying band `(0.25, 0.75)` of the shader), yet
the canonical grid the step returns does not hold 2 at that cell — the
readback decodes every byte with `> 127 ? 1 : 0`.  The tensor engine, by
contrast, does decode its internal dying value 0.5 to the canonical 2. -/
theorem claim5_webgl_dying_not_two :
    AutomataLogic3DGPU.briansBrainShaderByte (AutomataLogic3DGPU.textureOf [[[1]]]) 0 0 0
      = 128 ∧
    ((1 : Rat)/4 < 128/255 ∧ (128 : Rat)/255 < 3/4) ∧
    cellAt (AutomataLogic3DGPU.calculateNextGeneration3DGPU [[[1]]] "briansbrain3d") 0 0 0 ≠ 2 ∧
    cellAt (AutomataLogic3DTF.calculateNextGeneration3DTF [[[1]]] "briansbrain3d") 0 0 0 = 2 :=
  ⟨by with_unfolding_all decide, by with_unfolding_all decide,
    by with_unfolding_all decide, by with_unfolding_all decide⟩

/-- Claim C6 (counterexample): at `N = 2` the claim fails — the offsets `+1`
and `-1` wrap to the same neighbour, so cell `(1,0,0)` of the 2×2×2 corner
grid counts the live corner twice; the claim asserts count 1 for every
reachable cell at every `N ≥ 2`. -/
theorem claim6_counterexample :
    AutomataLogic3D.countLiveNeighbors3D (cornerGrid 2) 1 0 0 = .ok 2 := by decide

/-- Claim C7 (counterexample): the tensor engine flattens x-major, not
z-major.  In the 2×2×2 grid whose only live cell is `(1,0,0)`, the claimed
z-major flat index `z·Y·X + y·X + x = 1` holds 0, while the cell value is 1
(the tensor buffer keeps it at the x-major index 4 instead). -/
theorem claim7_counterexample :
    (AutomataLogic3DTF.flatDataOf
        [[[0, 0], [0, 0]], [[1, 0], [0, 0]]])[(0 * 2 * 2 + 0 * 2 + 1 : Nat)]? = some 0 ∧
    cellAt [[[0, 0], [0, 0]], [[1, 0], [0, 0]]] 1 0 0 = 1 ∧
    (AutomataLogic3DTF.flatDataOf [[[0, 0], [0, 0]], [[1, 0], [0, 0]]])[(4 : Nat)]?
      = some 1 := by decide

theorem length_flatMap_range {α : Type} (n L : Nat) (f : Nat → List α)
    (hL : ∀ i < n, (f i).length = L) : ((List.range n).flatMap f).length = n * L := by
  induction n with
  | zero => simp
  | succ n ih =>
    rw [List.range_succ, List.flatMap_append,
      List.length_append, ih (fun i hi => hL i (by omega))]
    simp [hL n (by omega)]
    ring

theorem getElem?_flatMap_range {α : Type} (n L : Nat) (f : Nat → List α)
    (hL : ∀ i < n, (f i).length = L) (k r : Nat) (hk : k < n) (hr : r < L) :
    ((List.range n).flatMap f)[k * L + r]? = (f k)[r]? := by
  induction n with
  | zero => omega
  | succ n ih =>
    rw [List.range_succ, List.flatMap_append]
    have hlen : ((List.range n).flatMap f).length = n * L :=
      length_flatMap_range n L f (fun i hi => hL i (by omega))
    by_cases hkn : k < n
    · rw [List.getElem?_append_left]
      · exact ih (fun i hi => hL i (by omega)) hkn
      · rw [hlen]
        calc k * L + r < k * L + L := by omega
          _ = (k + 1) * L := by ring
          _ ≤ n * L := Nat.mul_le_mul_right L (by omega)
    · have hkn' : k = n := by omega
      subst hkn'
      rw [List.getElem?_append_right]
      · rw [hlen]
        have harith : k * L + r - k * L = r := by omega
        rw [harith]
        simp
      · rw [hlen]
        omega

theorem two_dim_index_lt {x X y Y : Nat} (hx : x < X) (hy : y < Y) : y * X + x < Y * X :=
  calc y * X + x < y * X + X := by omega
    _ = (y + 1) * X := by ring
    _ ≤ Y * X := Nat.mul_le_mul_right X (by omega)

theorem webgpu_marshal_zmajor {g : Grid3} {X Y Z : Nat} (hwf : WellFormed g X Y Z)
    {x y z : Nat} (hx : x < X) (hy : y < Y) (hz : z < Z) :
    (AutomataLogic3DWEBGPU.cellStateArrayOf g)[z * Y * X + y * X + x]?
      = some (AutomataLogic3DWEBGPU.toUint32 (cellAt g x y z)) := by
  unfold AutomataLogic3DWEBGPU.cellStateArrayOf
  rw [hwf.1, wf_sizeY hwf, wf_sizeZ hwf]
  rw [show z * Y * X + y * X + x = z * (Y * X) + (y * X + x) from by ring]
  rw [getElem?_flatMap_range Z (Y * X) _
    (fun i hi => length_flatMap_range Y X _ (fun j hj => by simp))
    z (y * X + x) hz (two_dim_index_lt hx hy)]
  rw [getElem?_flatMap_range Y X _ (fun j hj => by simp) y x hy hx]
  simp [List.getElem?_map, List.getElem?_range, hx]

theorem texture_marshal_zmajor {g : Grid3} {X Y Z : Nat} (hwf : WellFormed g X Y Z)
    {x y z : Nat} (hx : x < X) (hy : y < Y) (hz : z < Z) :
    (AutomataLogic3DGPU.textureDataOf g)[(z * Y * X + y * X + x) * 4]?
      = some (AutomataLogic3DGPU.toUint8 (cellAt g x y z * 255)) := by
  unfold AutomataLogic3DGPU.textureDataOf
  rw [hwf.1, wf_sizeY hwf, wf_sizeZ hwf]
  rw [show (z * Y * X + y * X + x) * 4 = z * (Y * (X * 4)) + (y * (X * 4) + (x * 4 + 0))
    from by ring]
  rw [getElem?_flatMap_range Z (Y * (X * 4)) _
    (fun i hi => length_flatMap_range Y (X * 4) _
      (fun j hj => length_flatMap_range X 4 _ (fun m hm => by simp)))
    z _ hz (two_dim_index_lt (two_dim_index_lt (show 0 < 4 from by omega) hx) hy)]
  rw [getElem?_flatMap_range Y (X * 4) _
    (fun j hj => length_flatMap_range X 4 _ (fun m hm => by simp))
    y _ hy (two_dim_index_lt (show 0 < 4 from by omega) hx)]
  rw [getElem?_flatMap_range X 4 _ (fun m hm => by simp) x 0 hx (by omega)]
  simp

theorem tf_marshal_xmajor {g : Grid3} {X Y Z : Nat} (hwf : WellFormed g X Y Z)
    {x y z : Nat} (hx : x < X) (hy : y < Y) (hz : z < Z) :
    (AutomataLogic3DTF.flatDataOf g)[x * Y * Z + y * Z + z]? = some (cellAt g x y z) := by
  unfold AutomataLogic3DTF.flatDataOf
  rw [hwf.1, wf_sizeY hwf, wf_sizeZ hwf]
  rw [show x * Y * Z + y * Z + z = x * (Y * Z) + (y * Z + z) from by ring]
  rw [getElem?_flatMap_range X (Y * Z) _
    (fun i hi => length_flatMap_range Y Z _ (fun j hj => by simp))
    x (y * Z + z) hx (two_dim_index_lt hz hy)]
  rw [getElem?_flatMap_range Y Z _ (fun j hj => by simp) y z hy hz]
  simp [List.getElem?_map, List.getElem?_range, hz]

/-- Claim C7 (amended): the WebGPU storage-buffer marshal and the WebGL
texture pixel-data marshal use the canonical z-major flat ordering (cell
`(x,y,z)` sits at flat index `z·Y·X + y·X + x`, scaled by 4 bytes per texel
for the RGBA texture data), but the tensor engine does not: its flat tensor
buffer is x-major — cell `(x,y,z)` sits at `x·Y·Z + y·Z + z` (see the
counterexample for a cell where the two orderings disagree). -/
theorem claim7_marshaling_amended :
    (∀ (g : Grid3) (X Y Z : Nat), WellFormed g X Y Z → ∀ x y z : Nat,
      x < X → y < Y → z < Z →
      (AutomataLogic3DWEBGPU.cellStateArrayOf g)[z * Y * X + y * X + x]?
        = some (AutomataLogic3DWEBGPU.toUint32 (cellAt g x y z))) ∧
    (∀ (g : Grid3) (X Y Z : Nat), WellFormed g X Y Z → ∀ x y z : Nat,
      x < X → y < Y → z < Z →
      (AutomataLogic3DGPU.textureDataOf g)[(z * Y * X + y * X + x) * 4]?
        = some (AutomataLogic3DGPU.toUint8 (cellAt g x y z * 255))) ∧
    (∀ (g : Grid3) (X Y Z : Nat), WellFormed g X Y Z → ∀ x y z : Nat,
      x < X → y < Y → z < Z →
      (AutomataLogic3DTF.flatDataOf g)[x * Y * Z + y * Z + z]? = some (cellAt g x y z)) :=
  ⟨fun _ _ _ _ hwf _ _ _ hx hy hz => webgpu_marshal_zmajor hwf hx hy hz,
   fun _ _ _ _ hwf _ _ _ hx hy hz => texture_marshal_zmajor hwf hx hy hz,
   fun _ _ _ _ hwf _ _ _ hx hy hz => tf_marshal_xmajor hwf hx hy hz⟩

/-- Witness for claim C7 at the concrete 2×2×2 grid with a single live cell
at `(1,0,0)`. -/
theorem claim7_witness :
    (AutomataLogic3DWEBGPU.cellStateArrayOf
        [[[0, 0], [0, 0]], [[1, 0], [0, 0]]])[0 * 2 * 2 + 0 * 2 + 1]?
      = some (AutomataLogic3DWEBGPU.toUint32
          (cellAt [[[0, 0], [0, 0]], [[1, 0], [0, 0]]] 1 0 0)) ∧
    (AutomataLogic3DGPU.textureDataOf
        [[[0, 0], [0, 0]], [[1, 0], [0, 0]]])[(0 * 2 * 2 + 0 * 2 + 1) * 4]?
      = some (AutomataLogic3DGPU.toUint8
          (cellAt [[[0, 0], [0, 0]], [[1, 0], [0, 0]]] 1 0 0 * 255)) ∧
    (AutomataLogic3DTF.flatDataOf
        [[[0, 0], [0, 0]], [[1, 0], [0, 0]]])[1 * 2 * 2 + 0 * 2 + 0]?
      = some (cellAt [[[0, 0], [0, 0]], [[1, 0], [0, 0]]] 1 0 0) :=
  ⟨claim7_marshaling_amended.1 [[[0, 0], [0, 0]], [[1, 0], [0, 0]]] 2 2 2 (by decide)
      1 0 0 (by decide) (by decide) (by decide),
   claim7_marshaling_amended.2.1 [[[0, 0], [0, 0]], [[1, 0], [0, 0]]] 2 2 2 (by decide)
      1 0 0 (by decide) (by decide) (by decide),
   claim7_marshaling_amended.2.2 [[[0, 0], [0, 0]], [[1, 0], [0, 0]]] 2 2 2 (by decide)
      1 0 0 (by decide) (by decide) (by decide)⟩

theorem specWrap_lt (size : Nat) (h : 0 < size) (i : Int) : specWrap size i < size := by
  have hpos : (0 : Int) < (size : Int) := by exact_mod_cast h
  have h1 := Int.emod_nonneg i hpos.ne'
  have h2 := Int.emod_lt_of_pos i hpos
  unfold specWrap
  omega

theorem specWrap_sub_one_eq_zero_iff {N x : Nat} (hN : 3 ≤ N) (hx : x < N) :
    specWrap N ((x : Int) + (-1)) = 0 ↔ x = 1 := by
  unfold specWrap
  rcases Nat.eq_zero_or_pos x with h0 | hpos2
  · subst h0
    have hmod2 : (((0 : Nat) : Int) + (-1)) % (N : Int) = (N : Int) - 1 := by
      rw [show (((0 : Nat) : Int) + (-1)) = ((N : Int) - 1) + (N : Int) * (-1) from by
        push_cast; ring, Int.add_mul_emod_self_left,
        Int.emod_eq_of_lt (by omega) (by omega)]
    rw [hmod2]
    omega
  · have hmod : ((x : Int) + (-1)) % (N : Int) = (x : Int) - 1 := by
      rw [show ((x : Int) + (-1)) = (x : Int) - 1 from by ring]
      exact Int.emod_eq_of_lt (by omega) (by omega)
    rw [hmod]
    omega

theorem specWrap_self_eq_zero_iff {N x : Nat} (_hN : 0 < N) (hx : x < N) :
    specWrap N ((x : Int)) = 0 ↔ x = 0 := by
  unfold specWrap
  rw [Int.emod_eq_of_lt (by omega) (by omega)]
  omega

theorem specWrap_add_one_eq_zero_iff {N x : Nat} (hN : 3 ≤ N) (hx : x < N) :
    specWrap N ((x : Int) + 1) = 0 ↔ x = N - 1 := by
  unfold specWrap
  by_cases hlast : x = N - 1
  · subst hlast
    rw [show (((N - 1 : Nat) : Int) + 1) = (N : Int) from by omega]
    rw [Int.emod_self]
    omega
  · rw [Int.emod_eq_of_lt (by omega) (by omega)]
    omega

set_option maxHeartbeats 1600000 in
theorem specNeighborCount_corner {N : Nat} (hN : 3 ≤ N) {x y z : Nat}
    (hx : x < N) (hy : y < N) (hz : z < N) :
    specNeighborCount (cornerGrid N) N N N x y z =
      if (x = 0 ∨ x = 1 ∨ x = N - 1) ∧ (y = 0 ∨ y = 1 ∨ y = N - 1) ∧
          (z = 0 ∨ z = 1 ∨ z = N - 1) ∧ ¬(x = 0 ∧ y = 0 ∧ z = 0) then 1 else 0 := by
  have hposN : 0 < N := by omega
  have hkey : ∀ i j k : Int,
      (cellAt (cornerGrid N) (specWrap N i) (specWrap N j) (specWrap N k) = 1)
      ↔ (specWrap N i = 0 ∧ specWrap N j = 0 ∧ specWrap N k = 0) := by
    intro i j k
    rw [cornerGrid, cellAt_buildGrid (specWrap_lt N hposN _) (specWrap_lt N hposN _)
      (specWrap_lt N hposN _)]
    by_cases hcond : specWrap N i = 0 ∧ specWrap N j = 0 ∧ specWrap N k = 0
    · rw [if_pos hcond]
      simp [hcond]
    · rw [if_neg hcond]
      simp [hcond]
  simp only [specNeighborCount, mooreOffsets, List.countP_cons, List.countP_nil,
    decide_eq_true_eq]
  simp only [hkey]
  simp only [add_zero]
  simp only [specWrap_sub_one_eq_zero_iff hN hx, specWrap_self_eq_zero_iff hposN hx,
    specWrap_add_one_eq_zero_iff hN hx,
    specWrap_sub_one_eq_zero_iff hN hy, specWrap_self_eq_zero_iff hposN hy,
    specWrap_add_one_eq_zero_iff hN hy,
    specWrap_sub_one_eq_zero_iff hN hz, specWrap_self_eq_zero_iff hposN hz,
    specWrap_add_one_eq_zero_iff hN hz]
  have hxc : (x = 0 ∧ x ≠ 1 ∧ x ≠ N - 1) ∨ (x = 1 ∧ x ≠ 0 ∧ x ≠ N - 1) ∨
      (x = N - 1 ∧ x ≠ 0 ∧ x ≠ 1) ∨ (x ≠ 0 ∧ x ≠ 1 ∧ x ≠ N - 1) := by omega
  have hyc : (y = 0 ∧ y ≠ 1 ∧ y ≠ N - 1) ∨ (y = 1 ∧ y ≠ 0 ∧ y ≠ N - 1) ∨
      (y = N - 1 ∧ y ≠ 0 ∧ y ≠ 1) ∨ (y ≠ 0 ∧ y ≠ 1 ∧ y ≠ N - 1) := by omega
  have hzc : (z = 0 ∧ z ≠ 1 ∧ z ≠ N - 1) ∨ (z = 1 ∧ z ≠ 0 ∧ z ≠ N - 1) ∨
      (z = N - 1 ∧ z ≠ 0 ∧ z ≠ 1) ∨ (z ≠ 0 ∧ z ≠ 1 ∧ z ≠ N - 1) := by omega
  rcases hxc with ⟨rfl, hb, hc⟩ | ⟨rfl, hb, hc⟩ | ⟨rfl, hb, hc⟩ | ⟨ha, hb, hc⟩ <;>
    rcases hyc with ⟨rfl, he, hf⟩ | ⟨rfl, he, hf⟩ | ⟨rfl, he, hf⟩ | ⟨hd, he, hf⟩ <;>
    rcases hzc with ⟨rfl, hh, hi⟩ | ⟨rfl, hh, hi⟩ | ⟨rfl, hh, hi⟩ | ⟨hg, hh, hi⟩ <;>
    simp [*]

/-- Claim C6 (amended): toroidal wraparound of the single-corner-cell count
holds as described for every `N ≥ 3` (at `N = 2` the claim fails, see the
counterexample): in the `N×N×N` grid whose only live cell is `(0,0,0)`, the
CPU neighbour count is 1 exactly at the cells reachable from the corner by
±1 wrapped offsets (all three coordinates in `{0, 1, N-1}`) other than the
corner itself, and 0 everywhere else. -/
theorem claim6_corner_neighbor_count_amended (N : Nat) (hN : 3 ≤ N) (x y z : Nat)
    (hx : x < N) (hy : y < N) (hz : z < N) :
    AutomataLogic3D.countLiveNeighbors3D (cornerGrid N) x y z =
      .ok (if (x = 0 ∨ x = 1 ∨ x = N - 1) ∧ (y = 0 ∨ y = 1 ∨ y = N - 1) ∧
          (z = 0 ∨ z = 1 ∨ z = N - 1) ∧ ¬(x = 0 ∧ y = 0 ∧ z = 0) then 1 else 0) := by
  have hwf : WellFormed (cornerGrid N) N N N :=
    buildGrid_wf N N N _ (by omega) (by omega) (by omega)
  rw [countLiveNeighbors3D_wf hwf, specNeighborCount_corner hN hx hy hz]

/-- Witness for claim C6 at `N = 4`, cell `(3, 0, 1)` (a wrapped neighbour of
the corner). -/
theorem claim6_witness :
    AutomataLogic3D.countLiveNeighbors3D (cornerGrid 4) 3 0 1 =
      .ok (if ((3 : Nat) = 0 ∨ (3 : Nat) = 1 ∨ (3 : Nat) = 4 - 1) ∧
          ((0 : Nat) = 0 ∨ (0 : Nat) = 1 ∨ (0 : Nat) = 4 - 1) ∧
          ((1 : Nat) = 0 ∨ (1 : Nat) = 1 ∨ (1 : Nat) = 4 - 1) ∧
          ¬((3 : Nat) = 0 ∧ (0 : Nat) = 0 ∧ (1 : Nat) = 0) then 1 else 0) :=
  claim6_corner_neighbor_count_amended 4 (by omega) 3 0 1 (by omega) (by omega) (by omega)

/-- Claim C8 (counterexample): a ragged grid that passes the entry guard
(non-empty outer array, non-empty first plane and first row) throws instead
of returning the minimal grid: in `[[[1],[1]],[[1]]]` the neighbour loop
reads the missing row `grid[1][1]`, and indexing into that `undefined`
throws a `TypeError`. -/
theorem claim8_counterexample :
    AutomataLogic3D.calculateNextGeneration3D (some [[[1], [1]], [[1]]]) "conway3d"
      = .error () := by decide

/-- Claim C8 (amended): the CPU engine returns the canonical 1×1×1 all-dead
grid, without throwing, exactly for the inputs its guard checks — a null
grid, an empty outer array, an empty first plane, or an empty first row
(which covers every well-formed grid with a zero dimension); ragged grids
that pass this first-element guard can still throw (see the
counterexample). -/
theorem claim8_guard_amended :
    (∀ ruleName, AutomataLogic3D.calculateNextGeneration3D none ruleName
      = .ok (createEmpty3DGrid 1 1 1)) ∧
    (∀ (g : Grid3) (ruleName : String),
      g.length = 0 ∨ (g.headD []).length = 0 ∨ ((g.headD []).headD []).length = 0 →
      AutomataLogic3D.calculateNextGeneration3D (some g) ruleName
        = .ok (createEmpty3DGrid 1 1 1)) := by
  refine ⟨fun ruleName => rfl, fun g ruleName h => ?_⟩
  simp only [AutomataLogic3D.calculateNextGeneration3D]
  rw [if_pos h]

/-- Witness for claim C8: the guard cases at concrete inputs. -/
theorem claim8_witness :
    AutomataLogic3D.calculateNextGeneration3D none "conway3d"
      = .ok (createEmpty3DGrid 1 1 1) ∧
    AutomataLogic3D.calculateNextGeneration3D (some []) "conway3d"
      = .ok (createEmpty3DGrid 1 1 1) :=
  ⟨claim8_guard_amended.1 "conway3d", claim8_guard_amended.2 [] "conway3d" (by decide)⟩

/-- Claim C9: an identifier that is not a key of the rule table silently
falls back to the default `conway3d` definition (birth `{5,6,7}`, survival
`{4,5,6}`): stepping with it gives exactly the result of stepping with
`conway3d`, with no error, on the CPU engine (for every grid argument,
including null and malformed ones) and on the tensor engine. -/
theorem claim9_unknown_rule_fallback (ruleName : String)
    (h : RULE_DEFINITIONS ruleName = none) :
    (∀ g? : Option Grid3, AutomataLogic3D.calculateNextGeneration3D g? ruleName
      = AutomataLogic3D.calculateNextGeneration3D g? "conway3d") ∧
    (∀ g : Grid3, AutomataLogic3DTF.calculateNextGeneration3DTF g ruleName
      = AutomataLogic3DTF.calculateNextGeneration3DTF g "conway3d") := by
  have hbb : ruleName ≠ "briansbrain3d" := by
    rintro rfl
    rw [show RULE_DEFINITIONS "briansbrain3d" = some .special from by decide] at h
    simp at h
  have hcb : ruleName ≠ "checkerboard" := by
    rintro rfl
    rw [show RULE_DEFINITIONS "checkerboard" = some .static from by decide] at h
    simp at h
  constructor
  · intro g?
    cases g? with
    | none => rfl
    | some g =>
      simp only [AutomataLogic3D.calculateNextGeneration3D]
      by_cases hg : g.length = 0 ∨ (g.headD []).length = 0 ∨
          ((g.headD []).headD []).length = 0
      · rw [if_pos hg, if_pos hg]
      · rw [if_neg hg, if_neg hg, if_neg hbb, if_neg hcb,
          if_neg (show ¬("conway3d" = "briansbrain3d") from by decide),
          if_neg (show ¬("conway3d" = "checkerboard") from by decide), h,
          show RULE_DEFINITIONS "conway3d" = some (.bs [5, 6, 7] [4, 5, 6]) from by decide]
        rfl
  · intro g
    simp only [AutomataLogic3DTF.calculateNextGeneration3DTF]
    by_cases hg : g.length = 0 ∨ (g.headD []).length = 0 ∨
        ((g.headD []).headD []).length = 0
    · rw [if_pos hg, if_pos hg]
    · rw [if_neg hg, if_neg hg]
      have hcw : RULE_DEFINITIONS "conway3d" = some (RuleDef.bs [5, 6, 7] [4, 5, 6]) := by
        decide
      simp only [AutomataLogic3DTF.computeNextGeneration, h, hcw, Option.getD_none,
        Option.getD_some]
      simp [hbb, hcb]

/-- Witness for claim C9 at the unknown identifier `slime` and a concrete
grid. -/
theorem claim9_witness :
    RULE_DEFINITIONS "slime" = none ∧
    AutomataLogic3D.calculateNextGeneration3D (some [[[1]]]) "slime"
      = AutomataLogic3D.calculateNextGeneration3D (some [[[1]]]) "conway3d" ∧
    AutomataLogic3DTF.calculateNextGeneration3DTF [[[1]]] "slime"
      = AutomataLogic3DTF.calculateNextGeneration3DTF [[[1]]] "conway3d" :=
  ⟨by decide, (claim9_unknown_rule_fallback "slime" (by decide)).1 _,
    (claim9_unknown_rule_fallback "slime" (by decide)).2 _⟩

/-- Claim C10 (counterexample): with the pattern argument omitted, JS
supplies the default `checkerboard`, whose branch is total — at 1×1×1 the
call returns the checkerboard grid `[[[1]]]` and throws no `TypeError`,
contrary to the claimed failing instance. -/
theorem claim10_counterexample :
    AutomataLogic3D.createInitial3DGrid (fun _ _ _ => false) 1 1 1 "checkerboard"
      = .ok [[[1]]] := by decide

/-- Claim C10 (amended): `createInitial3DGrid` is indeed not total on
positive dimensions, but the throwing instances differ from the claimed one:
an unrecognised pattern name takes the composite default branch, whose first
centred write `grid[centerX - 2]` throws at 1×1×1; and the `cross` pattern,
whose arm length `min(3, floor(sizeX/4))` is derived from `sizeX` alone even
on the y and z axes, throws at 4×1×1 on the write `grid[centerX][centerY-1]`.
The omitted-argument default is `checkerboard`, which is total at
1×1×1. -/
theorem claim10_amended (rnd : Int → Int → Int → Bool) :
    AutomataLogic3D.createInitial3DGrid rnd 1 1 1 "pyramid" = .error () ∧
    AutomataLogic3D.createInitial3DGrid rnd 4 1 1 "cross" = .error () ∧
    AutomataLogic3D.createInitial3DGrid rnd 1 1 1 "checkerboard" = .ok [[[1]]] :=
  ⟨rfl, rfl, rfl⟩

/-- Witness for claim C10 at a concrete randomness oracle. -/
theorem claim10_witness :
    AutomataLogic3D.createInitial3DGrid (fun _ _ _ => false) 1 1 1 "pyramid" = .error () ∧
    AutomataLogic3D.createInitial3DGrid (fun _ _ _ => false) 4 1 1 "cross" = .error () ∧
    AutomataLogic3D.createInitial3DGrid (fun _ _ _ => false) 1 1 1 "checkerboard"
      = .ok [[[1]]] :=
  claim10_amended (fun _ _ _ => false)
